import Mathlib

/-!
Verification of the form-detection / form-submission / compliance core of the
auto-inquiry-form-submitter repository.  The Python sources are shallowly
embedded here: pure string and numeric logic becomes Lean functions over
`List Char` / `String` / `ℚ`, environmental effects (network fetches, browser
actions, random draws, wall-clock time) become explicit parameters, and
exception paths become `Option`/sum results.  All definitions are executable
and kernel-reducible (no well-founded recursion on opaque string primitives).
-/

/-! ## Character-list string primitives

The Python code uses `str.strip`, `str.lower`, `str.startswith`,
`str.split`, and the substring test `pat in s`.  They are modelled on
`List Char` with structural recursion so that proofs can evaluate them.
-/

/-- Python `str.split(sep)` for a one-character separator: `"".split` gives
`[""]`, and separators at the ends produce empty pieces, exactly as in
Python. -/
def splitOnChar (sep : Char) : List Char → List (List Char)
  | [] => [[]]
  | c :: rest =>
    let r := splitOnChar sep rest
    if c = sep then [] :: r
    else
      match r with
      | [] => [[c]]
      | h :: t => (c :: h) :: t

/-- ASCII whitespace stripped by Python's default `str.strip()`. -/
def isSpaceChar (c : Char) : Bool :=
  c = ' ' || c = '\t' || c = '\n' || c = '\r' || c = '\x0b' || c = '\x0c'

/-- Python `str.strip()` (default whitespace). -/
def trimChars (l : List Char) : List Char :=
  ((l.dropWhile isSpaceChar).reverse.dropWhile isSpaceChar).reverse

/-- Python `str.lower()`; the sources only rely on ASCII case-folding
(directive keywords, agent names, keyword tables), which `Char.toLower`
implements; non-ASCII characters (the Japanese keywords) are untouched by
both. -/
def lowerChars (l : List Char) : List Char :=
  l.map Char.toLower

/-- Substring test, Python `pat in s` (empty pattern is contained in
everything, as in Python). -/
def infixOfChars (pat : List Char) : List Char → Bool
  | [] => pat.isEmpty
  | c :: rest => pat.isPrefixOf (c :: rest) || infixOfChars pat rest

/-- Python `pat in s` lifted to `String`. -/
def strContains (s pat : String) : Bool :=
  infixOfChars pat.toList s.toList

/-- Python `str.lower()` lifted to `String`. -/
def strLower (s : String) : String :=
  ⟨lowerChars s.toList⟩

/-- Python `s.startswith(pre)` lifted to `String`. -/
def strStartsWith (s pre : String) : Bool :=
  pre.toList.isPrefixOf s.toList

/-- Python `s.strip()` lifted to `String`. -/
def strTrim (s : String) : String :=
  ⟨trimChars s.toList⟩

/-- Python `s.split(sep, 1)[1]` for a one-character separator, on the robots
lines: everything after the first `:`.  All call sites in the source are
guarded by a `startswith` check that guarantees the colon is present. -/
def afterColon (s : String) : String :=
  ⟨(s.toList.dropWhile (fun c => c ≠ ':')).drop 1⟩

/-- Numeric value of a digit string. -/
def natOfDigits (l : List Char) : ℕ :=
  l.foldl (fun a c => a * 10 + (c.toNat - 48)) 0

/-- Python `float(s)` restricted to the plain decimal forms
(`[+-]digits[.digits]`) that robots.txt `Crawl-delay` values take; every
other input is treated as raising `ValueError` (`none`).  The sign is applied
by negation rather than multiplication so that integer parses stay
kernel-reducible. -/
def parseFloat (s : String) : Option ℚ :=
  let signBody : Bool × List Char :=
    match s.toList with
    | '-' :: rest => (true, rest)
    | '+' :: rest => (false, rest)
    | l => (false, l)
  let neg := signBody.1
  let body := signBody.2
  let intPart := body.takeWhile Char.isDigit
  let rest := body.dropWhile Char.isDigit
  let magnitude : Option ℚ :=
    match rest with
    | [] =>
      if intPart.isEmpty then none
      else some (natOfDigits intPart : ℚ)
    | '.' :: fracPart =>
      if fracPart.all Char.isDigit && !(intPart.isEmpty && fracPart.isEmpty) then
        some ((natOfDigits intPart : ℚ)
          + (natOfDigits fracPart : ℚ) / (10 : ℚ) ^ fracPart.length)
      else none
    | _ => none
  match magnitude with
  | none => none
  | some m => some (if neg then -m else m)

/-! ## `ComplianceManager._parse_robots_txt`
(src/backend/app/core/compliance.py, lines 278-324)

The line loop carries four mutable variables
(`current_user_agent`, `allows_crawling`, `crawl_delay`,
`specific_bot_crawl_delay`); they become a fold state. -/

structure RobotsState where
  current_user_agent : Option String
  allows_crawling : Bool
  crawl_delay : ℚ
  specific_bot_crawl_delay : Option ℚ
deriving DecidableEq, Repr

def robotsInit : RobotsState :=
  ⟨none, true, 1, none⟩

/-- One iteration of the `for line in lines` loop of `_parse_robots_txt`. -/
def robotsStep (st : RobotsState) (raw : String) : RobotsState :=
  let line := strTrim raw
  if line = "" || strStartsWith line "#" then st
  else if strStartsWith (strLower line) "user-agent:" then
    { st with current_user_agent := some (strLower (strTrim (afterColon line))) }
  else if st.current_user_agent = some "autoinquirybot" then
    if strStartsWith (strLower line) "disallow:" then
      if strTrim (afterColon line) = "/" then { st with allows_crawling := false } else st
    else if strStartsWith (strLower line) "crawl-delay:" then
      match parseFloat (strTrim (afterColon line)) with
      | some v => { st with specific_bot_crawl_delay := some v }
      | none => st
    else st
  else if st.current_user_agent = some "*" && st.specific_bot_crawl_delay = none then
    if strStartsWith (strLower line) "disallow:" then
      if strTrim (afterColon line) = "/" then { st with allows_crawling := false } else st
    else if strStartsWith (strLower line) "crawl-delay:" then
      match parseFloat (strTrim (afterColon line)) with
      | some v => { st with crawl_delay := max st.crawl_delay v }
      | none => st
    else st
  else st

/-- The whole `for` loop over `content.split('\n')`. -/
def robotsScan (content : String) : RobotsState :=
  ((splitOnChar '\n' content.toList).map (fun l => (⟨l⟩ : String))).foldl robotsStep robotsInit

/-- `ComplianceManager._parse_robots_txt`: returns
`(allows_crawling, crawl_delay)`. -/
def parse_robots_txt (content : String) : Bool × ℚ :=
  if content = "" then (true, 1)
  else
    let fin := robotsScan content
    (fin.allows_crawling,
      match fin.specific_bot_crawl_delay with
      | some d => d
      | none => fin.crawl_delay)

/-! ## `BackoffStrategy`
(src/backend/app/core/compliance.py, lines 52-102)

`time.time()` becomes an explicit `now : ℚ` argument and the single
`random.random()` draw of `get_delay` an explicit `r : ℚ` (a real run draws
`r` uniformly from `[0,1)`). -/

structure BackoffStrategy where
  base_delay : ℚ
  max_delay : ℚ
  multiplier : ℚ
  failure_timestamps : List ℚ
deriving DecidableEq, Repr

/-- The constructor defaults `BackoffStrategy()` of the source. -/
def BackoffStrategy.default : BackoffStrategy :=
  ⟨1, 300, 2, []⟩

/-- The failures of the trailing hour counted by `get_delay`
(`[ts for ts in self.failure_timestamps if now - ts < 3600]`). -/
def recentFailureCount (timestamps : List ℚ) (now : ℚ) : ℕ :=
  (timestamps.filter (fun ts => now - ts < 3600)).length

/-- `BackoffStrategy.get_delay`. -/
def BackoffStrategy.get_delay (b : BackoffStrategy) (now r : ℚ) : ℚ :=
  if b.failure_timestamps = [] then b.base_delay
  else
    let recent := b.failure_timestamps.filter (fun ts => now - ts < 3600)
    if recent.length = 0 then b.base_delay
    else
      let delay := min (b.base_delay * b.multiplier ^ recent.length) b.max_delay
      let jitter := delay * (2 / 10) * (r - 1 / 2)
      max (1 / 10) (delay + jitter)

/-- `BackoffStrategy.record_failure`: append `now`, then keep only the
trailing 24 hours. -/
def BackoffStrategy.record_failure (b : BackoffStrategy) (now : ℚ) : BackoffStrategy :=
  { b with failure_timestamps :=
      (b.failure_timestamps ++ [now]).filter (fun ts => ts > now - 86400) }

/-- `BackoffStrategy.record_success`: keep only the failures of the trailing
10 minutes (`ts > now - 600`). -/
def BackoffStrategy.record_success (b : BackoffStrategy) (now : ℚ) : BackoffStrategy :=
  { b with failure_timestamps :=
      b.failure_timestamps.filter (fun ts => ts > now - 600) }

/-- Modelled from the spec: the delay formula as the spec words it, for
comparison with `BackoffStrategy.get_delay` — identical except that the
jitter is "±20% drawn uniformly", i.e. `delay * (4/10) * (r - 1/2)` for a
uniform `r` in `[0,1)`, where the code computes
`delay * 0.2 * (random.random() - 0.5)`. -/
def get_delay_spec (b : BackoffStrategy) (now r : ℚ) : ℚ :=
  if b.failure_timestamps = [] then b.base_delay
  else
    let recent := b.failure_timestamps.filter (fun ts => now - ts < 3600)
    if recent.length = 0 then b.base_delay
    else
      let delay := min (b.base_delay * b.multiplier ^ recent.length) b.max_delay
      let jitter := delay * (4 / 10) * (r - 1 / 2)
      max (1 / 10) (delay + jitter)

/-- `get_delay` as a function of the recent-failure count alone (helper for
the monotonicity claim). -/
def delayOfCount (base mx mult : ℚ) (n : ℕ) (r : ℚ) : ℚ :=
  if n = 0 then base
  else
    let delay := min (base * mult ^ n) mx
    max (1 / 10) (delay + delay * (2 / 10) * (r - 1 / 2))

/-! ## `TermsOfServiceDetector.analyze_terms_of_service`
(src/backend/app/core/compliance.py, lines 105-220)

The `requests.get(tos_url)` outcome is the environment: `ok content` for a
200 response with body `content`, `badStatus` for any other status code, and
`exn msg` for a raised exception. -/

inductive TosFetch where
  | ok (content : String)
  | badStatus
  | exn (msg : String)
deriving DecidableEq, Repr

def AUTOMATION_RESTRICTION_KEYWORDS : List String :=
  ["bot", "crawler", "scraping", "automated", "robot",
   "machine", "programmatic", "script",
   "ボット", "クローラー", "スクレイピング", "自動",
   "機械的", "プログラム", "スクリプト"]

def PROHIBITION_KEYWORDS : List String :=
  ["prohibited", "forbidden", "not allowed", "ban", "restrict",
   "禁止", "禁ずる", "不可", "制限", "違法"]

def CONTACT_CONTENT_KEYWORDS : List String :=
  ["contact", "support", "inquiry", "連絡", "問い合わせ"]

/-- `ComplianceCheck` dataclass. -/
structure ComplianceCheck where
  allowed : Bool
  warnings : List String
  errors : List String
  recommendations : List String
  delay_seconds : ℚ
deriving DecidableEq, Repr

/-- `TermsOfServiceDetector.analyze_terms_of_service`. -/
def analyze_terms_of_service (tos_url : String) (fetch : TosFetch) : ComplianceCheck :=
  match fetch with
  | .badStatus =>
    ⟨true, ["利用規約を取得できませんでした: " ++ tos_url], [], [], 0⟩
  | .exn msg =>
    ⟨true, ["利用規約の解析中にエラーが発生しました: " ++ msg], [], [], 0⟩
  | .ok content =>
    let c := strLower content
    let automation_restrictions :=
      AUTOMATION_RESTRICTION_KEYWORDS.filter (fun k => strContains c k)
    let has_prohibition := PROHIBITION_KEYWORDS.any (fun k => strContains c k)
    let warnings :=
      if automation_restrictions ≠ [] && !has_prohibition then
        ["自動化に関する記述が見つかりました。詳細確認を推奨します。キーワード: "
          ++ String.intercalate ", " (automation_restrictions.take 3)]
      else []
    let errors :=
      if automation_restrictions ≠ [] && has_prohibition then
        ["利用規約で自動化が禁止されている可能性があります。検出キーワード: "
          ++ String.intercalate ", " (automation_restrictions.take 3)]
      else []
    let recommendations :=
      (if automation_restrictions ≠ [] && has_prohibition then
        ["手動でのアクセスまたは事前許可の取得を検討してください"]
      else [])
      ++ (if !CONTACT_CONTENT_KEYWORDS.any (fun k => strContains c k) then
        ["連絡先情報が見つかりません。事前に許可を求めることを推奨します"]
      else [])
    ⟨errors.length = 0, warnings, errors, recommendations, 0⟩

/-! ## `ComplianceManager.check_compliance`
(src/backend/app/core/compliance.py, lines 223-384) -/

inductive ComplianceLevel where
  | strict
  | moderate
  | permissive
deriving DecidableEq, Repr

/-- `SitePolicy` dataclass (the fields this core reads). -/
structure SitePolicy where
  robots_txt_url : String
  terms_of_service_url : Option String
  allows_crawling : Bool
  requires_delay : ℚ
deriving DecidableEq, Repr

/-- The success path of `ComplianceManager._analyze_site_policy`: parse the
fetched robots.txt and floor the delay at 1 second. -/
def site_policy_of (robots_txt_url : String) (robots_content : String)
    (tos_url : Option String) : SitePolicy :=
  let parsed := parse_robots_txt robots_content
  ⟨robots_txt_url, tos_url, parsed.1, max parsed.2 1⟩

/-- `ComplianceManager.check_compliance`.  The cached `SitePolicy`, the
domain's current backoff delay and the terms-of-service fetch outcome are
explicit arguments; the list appends follow the statement order of the
source. -/
def check_compliance (level : ComplianceLevel) (policy : SitePolicy)
    (backoff_delay : ℚ) (tos_fetch : TosFetch) : ComplianceCheck :=
  let robots_warnings :=
    if !policy.allows_crawling && level ≠ .strict then
      ["robots.txtで制限されている可能性があります"]
    else []
  let robots_errors :=
    if !policy.allows_crawling && level = .strict then
      ["robots.txtで当該User-Agentのアクセスが禁止されています"]
    else []
  let delay_seconds := max policy.requires_delay backoff_delay
  let tosTriple : List String × List String × List String :=
    match policy.terms_of_service_url with
    | some url =>
      let tos_check := analyze_terms_of_service url tos_fetch
      (tos_check.warnings,
       tos_check.errors
         ++ (if !tos_check.allowed && level = .strict then
              ["利用規約により自動アクセスが制限されています"]
            else []),
       tos_check.recommendations)
    | none =>
      ((if level = .strict then ["利用規約が見つかりません。事前確認を推奨します"] else []),
       [], [])
  let warnings := robots_warnings ++ tosTriple.1
  let errors := robots_errors ++ tosTriple.2.1
  let recommendations := tosTriple.2.2
    ++ (if delay_seconds > 5 then
          ["高頻度アクセスを避け、" ++ toString delay_seconds ++ "秒以上の間隔を空けてください"]
        else [])
  let allowed :=
    if level = .strict && errors ≠ [] then false
    else if level = .moderate && errors.length > 2 then false
    else true
  ⟨allowed, warnings, errors, recommendations, delay_seconds⟩

/-! ## `FormSubmitter`
(src/backend/app/services/form_submitter.py)

`SubmissionStatus` from app/models/submission.py. -/

inductive SubmissionStatus where
  | pending
  | success
  | failed
  | captcha_required
deriving DecidableEq, Repr

/-- `success_patterns` of `FormSubmitter._determine_submission_result`. -/
def success_patterns : List String :=
  ["ありがとうございました", "送信完了", "受付完了", "thank you",
   "success", "submitted", "送信いたしました", "お問い合わせを受け付けました"]

/-- `error_patterns` of `FormSubmitter._determine_submission_result`. -/
def error_patterns : List String :=
  ["エラー", "error", "失敗", "failed", "必須", "required",
   "正しく", "invalid", "入力してください", "確認してください"]

/-- `FormSubmitter._determine_submission_result` (lines 355-398): the page
content after the click, the URL after the click and the URL recorded before
the click are its inputs; returns `(status, response)`. -/
def determine_submission_result (page_content current_url original_url : String) :
    SubmissionStatus × String :=
  let c := strLower page_content
  match success_patterns.find? (fun p => strContains c p) with
  | some p => (.success, "送信成功: " ++ p ++ " が検出されました")
  | none =>
    if current_url ≠ original_url then
      (.success, "送信完了（リダイレクト先: " ++ current_url ++ "）")
    else
      match error_patterns.find? (fun p => strContains c p) with
      | some p => (.failed, "送信エラー: " ++ p ++ " が検出されました")
      | none => (.success, "送信完了（結果判定: 不明）")

/-- One stored field as the FILL loop of `FormSubmitter._fill_form_fields`
(lines 169-202) sees it: `required` is the stored flag, `resolved` is what
`_map_template_data_to_field` returns for it, `locator_missing` is
`locator.count() == 0`, and `input_raises` is whether the input action on
the field raises. -/
structure FillField where
  required : Bool
  resolved : Option String
  locator_missing : Bool
  input_raises : Bool
deriving DecidableEq, Repr

/-- `FormSubmitter._fill_form_fields`: `none` means the loop raised (a
required field's input action failed); `some vs` returns the values actually
filled, in order.  A field with no resolved value is skipped (with a logged
warning when it was required); a missing locator is skipped; an exception
during the input action is re-raised only when the field is required. -/
def fill_form_fields : List FillField → Option (List String)
  | [] => some []
  | f :: rest =>
    match f.resolved with
    | none => fill_form_fields rest
    | some v =>
      if f.locator_missing then fill_form_fields rest
      else if f.input_raises then
        if f.required then none else fill_form_fields rest
      else (fill_form_fields rest).map (fun vs => v :: vs)

/-- `FormSubmitter._execute_submission` (lines 97-167) as a function of its
environment: whether `page.goto` raises, the stored `form.has_recaptcha`
flag, whether `_detect_active_recaptcha` finds a visible CAPTCHA, the
`dry_run` flag, whether `_fill_form_fields` raises, and the result
`_submit_form` would return.  The returned pair is the terminal
`SubmissionStatus` together with whether `_fill_form_fields` was invoked at
all (screenshot capture is omitted — it does not affect status or fill). -/
def execute_submission (nav_raises has_recaptcha active_captcha_visible dry_run
    fill_raises : Bool) (submit_result : SubmissionStatus × String) :
    SubmissionStatus × Bool :=
  if nav_raises then (.failed, false)
  else if has_recaptcha && active_captcha_visible then (.captcha_required, false)
  else if fill_raises then (.failed, true)
  else if dry_run then (.success, true)
  else (submit_result.1, true)

/-! ## `FormDetector`
(src/backend/app/services/form_detector.py)

`FormFieldType` from app/schemas/form.py. -/

inductive FormFieldType where
  | text
  | email
  | tel
  | textarea
  | select
  | radio
  | checkbox
deriving DecidableEq, Repr

/-- `re.search(r"email|mail|メール", s, re.IGNORECASE)` on the
already-lowercased combined string: alternation of literal substrings. -/
def patternEmailKeywords (s : String) : Bool :=
  strContains s "email" || strContains s "mail" || strContains s "メール"

/-- `re.search(r"type=['\"]?email['\"]?", s, ...)`: the closing quote class
is optional and therefore never constrains the match. -/
def patternEmailTypeAttr (s : String) : Bool :=
  strContains s "type=email" || strContains s "type=\x27email"
    || strContains s "type=\"email"

/-- `re.search(r"tel|phone|電話|でんわ", s, ...)`. -/
def patternTelKeywords (s : String) : Bool :=
  strContains s "tel" || strContains s "phone" || strContains s "電話"
    || strContains s "でんわ"

/-- `re.search(r"type=['\"]?tel['\"]?", s, ...)`. -/
def patternTelTypeAttr (s : String) : Bool :=
  strContains s "type=tel" || strContains s "type=\x27tel"
    || strContains s "type=\"tel"

/-- `re.search(r"message|content|内容|メッセージ|詳細|問い合わせ内容", s, ...)`. -/
def patternTextareaKeywords (s : String) : Bool :=
  strContains s "message" || strContains s "content" || strContains s "内容"
    || strContains s "メッセージ" || strContains s "詳細"
    || strContains s "問い合わせ内容"

/-- `FormDetector.FIELD_TYPE_PATTERNS`, in dict insertion order. -/
def FIELD_TYPE_PATTERNS : List (FormFieldType × List (String → Bool)) :=
  [(.email, [patternEmailKeywords, patternEmailTypeAttr]),
   (.tel, [patternTelKeywords, patternTelTypeAttr]),
   (.textarea, [patternTextareaKeywords])]

/-- `FormDetector._determine_field_type` (lines 427-458).  A `None` label
arrives as `""` (Python's `filter(None, ...)` drops both). -/
def determine_field_type (tag_name field_type name field_id placeholder label : String) :
    FormFieldType :=
  let combined := strLower
    ⟨List.intercalate [' ']
      ((([field_type, name, field_id, placeholder, label]).filter
        (fun s => s ≠ "")).map String.toList)⟩
  if tag_name = "textarea" then .textarea
  else if tag_name = "select" then .select
  else if field_type ≠ "" && strLower field_type = "email" then .email
  else if field_type ≠ "" && (strLower field_type = "tel" || strLower field_type = "phone") then .tel
  else if field_type ≠ "" && strLower field_type = "radio" then .radio
  else if field_type ≠ "" && strLower field_type = "checkbox" then .checkbox
  else
    match FIELD_TYPE_PATTERNS.find? (fun tp => tp.2.any (fun p => p combined)) with
    | some tp => tp.1
    | none => .text

/-- The per-field record built by `FormDetector._analyze_field`. -/
structure DetectedField where
  name : String
  field_type : FormFieldType
  selector : String
  label : Option String
  required : Bool
  options : Option (List String)
deriving DecidableEq, Repr

/-- The form record built by `FormDetector._analyze_single_form`. -/
structure FormData where
  form_url : String
  fields : List DetectedField
  submit_button_selector : String
  has_recaptcha : Bool
deriving DecidableEq, Repr

/-- `FormDetector._analyze_single_form` (lines 303-336).  `input_fields` is
the list of `input, textarea, select` controls of the form, each entry being
the result `_analyze_field` produced for it (`none` when that per-field
analysis raised and was swallowed); the submit selector and CAPTCHA flag are
computed separately and passed through. -/
def analyze_single_form (form_url : String) (input_fields : List (Option DetectedField))
    (submit_selector : String) (has_recaptcha : Bool) : Option FormData :=
  if input_fields.length < 2 then none
  else some ⟨form_url, input_fields.filterMap id, submit_selector, has_recaptcha⟩

/-! ## Shared helper lemmas -/

/-- `filterMap id` keeps everything when every entry is `some`. -/
theorem length_filterMap_id_of_all_isSome {α : Type} :
    ∀ (l : List (Option α)), (∀ c ∈ l, c.isSome = true) →
      (l.filterMap id).length = l.length := by
  intro l
  induction l with
  | nil => intro _; rfl
  | cons c rest ih =>
    intro h
    have hc : c.isSome = true := h c (by simp)
    obtain ⟨v, hv⟩ := Option.isSome_iff_exists.mp hc
    subst hv
    simp only [List.filterMap_cons, id, List.length_cons]
    rw [ih (fun g hg => h g (by simp [hg]))]

/-- The terms-of-service analyzer produces at most one error per check. -/
theorem analyze_tos_errors_le_one (tos_url : String) (fetch : TosFetch) :
    (analyze_terms_of_service tos_url fetch).errors.length ≤ 1 := by
  cases fetch with
  | badStatus => simp [analyze_terms_of_service]
  | exn msg => simp [analyze_terms_of_service]
  | ok content =>
    simp only [analyze_terms_of_service]
    split <;> simp

/-- `get_delay` depends on the failure list only through the count of
failures in the trailing hour. -/
theorem get_delay_eq_delayOfCount (base mx mult : ℚ) (ts : List ℚ) (now r : ℚ) :
    BackoffStrategy.get_delay ⟨base, mx, mult, ts⟩ now r
      = delayOfCount base mx mult (recentFailureCount ts now) r := by
  unfold BackoffStrategy.get_delay delayOfCount recentFailureCount
  by_cases h : ts = []
  · subst h; simp
  · rw [if_neg h]

/-- Monotonicity of the count-indexed delay for the default configuration
(base 1, cap 300, multiplier 2) and any jitter draw in `[0, 1]`. -/
theorem delayOfCount_mono (n m : ℕ) (r : ℚ) (hr0 : 0 ≤ r) (hr1 : r ≤ 1)
    (hnm : n ≤ m) : delayOfCount 1 300 2 n r ≤ delayOfCount 1 300 2 m r := by
  have hfact : ∀ d : ℚ, d + d * (2 / 10) * (r - 1 / 2) = d * (1 + (2 / 10) * (r - 1 / 2)) := by
    intro d; ring
  have hf9 : (9 / 10 : ℚ) ≤ 1 + (2 / 10) * (r - 1 / 2) := by linarith
  have hf0 : (0 : ℚ) ≤ 1 + (2 / 10) * (r - 1 / 2) := by linarith
  unfold delayOfCount
  rcases Nat.eq_zero_or_pos n with hn | hn
  · subst hn
    rcases Nat.eq_zero_or_pos m with hm | hm
    · subst hm; simp
    · rw [if_pos rfl, if_neg (Nat.pos_iff_ne_zero.mp hm)]
      have h2m : (2 : ℚ) ≤ 2 ^ m := le_self_pow₀ one_le_two (Nat.pos_iff_ne_zero.mp hm)
      have hdm : (2 : ℚ) ≤ min ((1 : ℚ) * 2 ^ m) 300 := by
        rw [one_mul]
        exact le_min h2m (by norm_num)
      refine le_trans ?_ (le_max_right _ _)
      dsimp only
      rw [hfact]
      nlinarith [mul_le_mul_of_nonneg_right hdm hf0]
  · rw [if_neg (Nat.pos_iff_ne_zero.mp hn),
      if_neg (Nat.pos_iff_ne_zero.mp (lt_of_lt_of_le hn hnm))]
    have hdd : min ((1 : ℚ) * 2 ^ n) 300 ≤ min ((1 : ℚ) * 2 ^ m) 300 := by
      rw [one_mul, one_mul]
      exact min_le_min (pow_le_pow_right₀ one_le_two hnm) le_rfl
    dsimp only
    rw [hfact, hfact]
    exact max_le_max le_rfl (mul_le_mul_of_nonneg_right hdd hf0)

/-! ## Claim C1 -/

/-- C1 counterexample: a bot-specific block is present
(`User-agent: autoinquirybot` / `Disallow: /foo`), yet appending a wildcard
block with `Disallow: /` flips `allows_crawling` from `true` to `false` —
the wildcard `Disallow` directive DOES affect the result even though the
bot-specific block is present, so the claimed full override is false. -/
theorem c1_counterexample :
    parse_robots_txt "User-agent: autoinquirybot\nDisallow: /foo" = (true, 1) ∧
    parse_robots_txt
      "User-agent: autoinquirybot\nDisallow: /foo\nUser-agent: *\nDisallow: /"
      = (false, 1) := by
  constructor
  · decide
  · decide

/-- C1 (amended): only the crawl-delay is overridden: (i) whenever the scan
records a bot-specific crawl-delay, the returned delay is exactly that value
(the wildcard's accumulated delay is discarded); (ii) a wildcard-block line
is inert (cannot touch `allows_crawling` or the delays) only once a
bot-specific crawl-delay has already been parsed — wildcard `Disallow`
directives encountered while no bot-specific crawl-delay is recorded still
affect the result even when a bot-specific block is present. -/
theorem c1_amended :
    (∀ (content : String) (d : ℚ),
      (robotsScan content).specific_bot_crawl_delay = some d →
      (parse_robots_txt content).2 = d) ∧
    (∀ (st : RobotsState) (line : String),
      st.current_user_agent = some "*" →
      st.specific_bot_crawl_delay ≠ none →
      (robotsStep st line).allows_crawling = st.allows_crawling ∧
      (robotsStep st line).crawl_delay = st.crawl_delay ∧
      (robotsStep st line).specific_bot_crawl_delay = st.specific_bot_crawl_delay) := by
  constructor
  · intro content d h
    by_cases hc : content = ""
    · subst hc
      have hnone : (robotsScan "").specific_bot_crawl_delay = none := by decide
      rw [hnone] at h
      exact Option.noConfusion h
    · unfold parse_robots_txt
      rw [if_neg hc]
      simp only [h]
  · intro st line h1 h2
    have key : ∃ c, robotsStep st line = { st with current_user_agent := c } := by
      unfold robotsStep
      dsimp only
      split
      · exact ⟨st.current_user_agent, rfl⟩
      · split
        · exact ⟨_, rfl⟩
        · split
          · rename_i hA
            rw [h1] at hA
            exact absurd hA (by decide)
          · split
            · rename_i hB
              simp only [Bool.and_eq_true, decide_eq_true_eq] at hB
              exact absurd hB.2 h2
            · exact ⟨st.current_user_agent, rfl⟩
    obtain ⟨c, hk⟩ := key
    rw [hk]
    exact ⟨rfl, rfl, rfl⟩

/-- C1 witness: a robots.txt whose bot block sets `Crawl-delay: 7` while the
wildcard block sets `Crawl-delay: 2` yields delay 7. -/
theorem c1_amended_witness :
    (parse_robots_txt
      "User-agent: autoinquirybot\nCrawl-delay: 7\nUser-agent: *\nCrawl-delay: 2").2
      = 7 :=
  c1_amended.1 _ 7 (by decide)

/-! ## Claim C2 -/

/-- C2: outcome classification order of
`FormSubmitter._determine_submission_result`: (1) any success phrase in the
lowercased content yields `success` regardless of the URLs; (2) with no
success phrase, a changed URL yields `success`; (3) with no success phrase
and an unchanged URL, any error phrase yields `failed`; (4) with no phrase
match at all and an unchanged URL, the result defaults to `success` with the
undetermined narrative. -/
theorem c2_classification_order :
    ∀ (content current_url original_url : String),
      ((∃ p ∈ success_patterns, strContains (strLower content) p = true) →
        (determine_submission_result content current_url original_url).1
          = SubmissionStatus.success) ∧
      ((∀ p ∈ success_patterns, strContains (strLower content) p = false) →
        current_url ≠ original_url →
        (determine_submission_result content current_url original_url).1
          = SubmissionStatus.success) ∧
      ((∀ p ∈ success_patterns, strContains (strLower content) p = false) →
        current_url = original_url →
        (∃ p ∈ error_patterns, strContains (strLower content) p = true) →
        (determine_submission_result content current_url original_url).1
          = SubmissionStatus.failed) ∧
      ((∀ p ∈ success_patterns, strContains (strLower content) p = false) →
        current_url = original_url →
        (∀ p ∈ error_patterns, strContains (strLower content) p = false) →
        determine_submission_result content current_url original_url
          = (SubmissionStatus.success, "送信完了（結果判定: 不明）")) := by
  intro content current_url original_url
  refine ⟨?_, ?_, ?_, ?_⟩
  · rintro ⟨p, hp, hc⟩
    simp only [determine_submission_result]
    cases hfind : success_patterns.find? (fun q => strContains (strLower content) q) with
    | none =>
      have := List.find?_eq_none.mp hfind p hp
      rw [hc] at this
      exact absurd rfl this
    | some q => simp [hfind]
  · intro hnone hne
    have hfind : success_patterns.find? (fun q => strContains (strLower content) q) = none :=
      List.find?_eq_none.mpr (fun q hq => by simp [hnone q hq])
    simp only [determine_submission_result, hfind]
    rw [if_pos hne]
  · intro hnone heq ⟨p, hp, hc⟩
    have hfind : success_patterns.find? (fun q => strContains (strLower content) q) = none :=
      List.find?_eq_none.mpr (fun q hq => by simp [hnone q hq])
    simp only [determine_submission_result, hfind]
    rw [if_neg (fun hne => hne heq)]
    cases hfind2 : error_patterns.find? (fun q => strContains (strLower content) q) with
    | none =>
      have := List.find?_eq_none.mp hfind2 p hp
      rw [hc] at this
      exact absurd rfl this
    | some q => simp [hfind2]
  · intro hnone heq hnone2
    have hfind : success_patterns.find? (fun q => strContains (strLower content) q) = none :=
      List.find?_eq_none.mpr (fun q hq => by simp [hnone q hq])
    have hfind2 : error_patterns.find? (fun q => strContains (strLower content) q) = none :=
      List.find?_eq_none.mpr (fun q hq => by simp [hnone2 q hq])
    simp only [determine_submission_result, hfind, hfind2]
    rw [if_neg (fun hne => hne heq)]

/-- C2 witness: content containing the success phrase "thank you" with an
unchanged URL classifies as success. -/
theorem c2_classification_order_witness :
    (determine_submission_result "We thank you kindly" "http://a/c" "http://a/c").1
      = SubmissionStatus.success :=
  (c2_classification_order "We thank you kindly" "http://a/c" "http://a/c").1
    ⟨"thank you", by decide, by decide⟩

/-! ## Claim C3 -/

/-- C3 counterexample: a visible CAPTCHA on a form whose stored
`has_recaptcha` flag is `false` is never re-checked — filling proceeds
(second component `true`) and the outcome is the submit result, not
`captcha_required`, contradicting "regardless of the stored has_captcha
flag". -/
theorem c3_counterexample :
    execute_submission false false true false false (SubmissionStatus.success, "ok")
      = (SubmissionStatus.success, true) := by decide

/-- C3 (amended): the visible-CAPTCHA re-check runs only when the stored
`has_captcha` flag is true; in that case a visible CAPTCHA is terminal —
the attempt returns `captcha_required` and no fill action is performed —
for every dry-run flag, fill behaviour and submit result. -/
theorem c3_amended :
    ∀ (dry_run fill_raises : Bool) (submit_result : SubmissionStatus × String),
      execute_submission false true true dry_run fill_raises submit_result
        = (SubmissionStatus.captcha_required, false) := by
  intro dry_run fill_raises submit_result
  rfl

/-! ## Claim C4 -/

/-- C4 counterexample: a required field whose value does not resolve is
merely skipped — `_fill_form_fields` completes without raising (`some []`,
nothing filled), whereas the claim requires an exception that fails the
FILL step. -/
theorem c4_counterexample :
    fill_form_fields [⟨true, none, false, false⟩] = some [] := by decide

/-- C4 (amended): a field with no resolved value is always skipped, required
or not — never an exception; the FILL loop cannot raise at all when no input
action raises; an exception during the input action of a required field
propagates and fails the FILL step; and conversely the FILL step completes
whenever no required field's input action raises — an input-action error on
a non-required field is tolerated (logged and skipped), so the loop fails
exactly when a required field's input action errors. -/
theorem c4_amended :
    (∀ (f : FillField) (rest : List FillField), f.resolved = none →
      fill_form_fields (f :: rest) = fill_form_fields rest) ∧
    (∀ fields : List FillField, (∀ f ∈ fields, f.input_raises = false) →
      (fill_form_fields fields).isSome = true) ∧
    (∀ (f : FillField) (rest : List FillField), f.resolved.isSome = true →
      f.locator_missing = false → f.input_raises = true → f.required = true →
      fill_form_fields (f :: rest) = none) ∧
    (∀ fields : List FillField,
      (∀ f ∈ fields, f.input_raises = true → f.required = false) →
      (fill_form_fields fields).isSome = true) := by
  refine ⟨?_, ?_, ?_, ?_⟩
  · intro f rest h
    simp [fill_form_fields, h]
  · intro fields
    induction fields with
    | nil => intro _; simp [fill_form_fields]
    | cons f rest ih =>
      intro h
      have hf : f.input_raises = false := h f (by simp)
      have ih' := ih (fun g hg => h g (by simp [hg]))
      cases hr : f.resolved with
      | none => simpa [fill_form_fields, hr] using ih'
      | some v =>
        simp only [fill_form_fields, hr, hf]
        cases hl : f.locator_missing
        · simpa [Option.isSome_map] using ih'
        · simpa using ih'
  · intro f rest h1 h2 h3 h4
    obtain ⟨v, hv⟩ := Option.isSome_iff_exists.mp h1
    simp [fill_form_fields, hv, h2, h3, h4]
  · intro fields
    induction fields with
    | nil => intro _; simp [fill_form_fields]
    | cons f rest ih =>
      intro h
      have ih' := ih (fun g hg hr => h g (by simp [hg]) hr)
      cases hr : f.resolved with
      | none => simpa [fill_form_fields, hr] using ih'
      | some v =>
        simp only [fill_form_fields, hr]
        cases hl : f.locator_missing
        · cases hir : f.input_raises
          · simpa [Option.isSome_map] using ih'
          · have hreq : f.required = false := h f (by simp) hir
            simpa [hreq] using ih'
        · simpa using ih'

/-- C4 witness: an input-action failure on a required, resolvable field
aborts the FILL loop, while the same failure on a non-required field is
tolerated and the loop still completes. -/
theorem c4_amended_witness :
    fill_form_fields [⟨true, some "v", false, true⟩] = none ∧
    (fill_form_fields [⟨false, some "v", false, true⟩]).isSome = true :=
  ⟨c4_amended.2.2.1 ⟨true, some "v", false, true⟩ []
      (by decide) (by decide) (by decide) (by decide),
   c4_amended.2.2.2 [⟨false, some "v", false, true⟩] (by decide)⟩

/-! ## Claim C5 -/

/-- C5 counterexample: a form element with two input-like controls passes
the `< 2` filter, yet when both per-field analyses fail (swallowed
exceptions, `None` results) the returned DetectedForm has an empty field
list — fewer than 2 fields, contradicting the claimed invariant. -/
theorem c5_counterexample :
    analyze_single_form "http://e/contact" [none, none] "" false
      = some ⟨"http://e/contact", [], "", false⟩ := by decide

/-- C5 (amended): forms with fewer than 2 input-like controls are rejected
(nothing returned); a returned DetectedForm always came from at least 2
controls, and its field list has at least 2 entries whenever every
per-field analysis succeeds — but it holds only the successful analyses, so
it can be shorter when some fail. -/
theorem c5_amended :
    (∀ (url : String) (ctrls : List (Option DetectedField)) (sel : String) (cap : Bool),
      ctrls.length < 2 → analyze_single_form url ctrls sel cap = none) ∧
    (∀ (url : String) (ctrls : List (Option DetectedField)) (sel : String) (cap : Bool)
      (f : FormData), analyze_single_form url ctrls sel cap = some f →
      2 ≤ ctrls.length ∧
      ((∀ c ∈ ctrls, c.isSome = true) → 2 ≤ f.fields.length)) := by
  constructor
  · intro url ctrls sel cap h
    simp [analyze_single_form, h]
  · intro url ctrls sel cap f h
    unfold analyze_single_form at h
    split at h
    · exact Option.noConfusion h
    · rename_i hlen
      have hge : 2 ≤ ctrls.length := Nat.le_of_not_lt hlen
      refine ⟨hge, fun hall => ?_⟩
      have hf : f.fields = ctrls.filterMap id := by
        cases h
        rfl
      rw [hf, length_filterMap_id_of_all_isSome ctrls hall]
      exact hge

/-- C5 witness: a single-control form is rejected, and a two-control form
with both analyses succeeding yields a two-field DetectedForm. -/
theorem c5_amended_witness :
    analyze_single_form "http://e/contact"
      [some ⟨"email", FormFieldType.email, "#email", none, false, none⟩] "" false
      = none :=
  c5_amended.1 "http://e/contact"
    [some ⟨"email", FormFieldType.email, "#email", none, false, none⟩] "" false
    (by decide)

/-! ## Claim C6 -/

/-- C6 counterexample: an `<input type="text">` named `inquiry_message` IS
classified `textarea` by the keyword table ("message" matches the textarea
pattern), although its tag is `input` — keyword textarea inference is not
restricted to actual textarea tags. -/
theorem c6_counterexample :
    determine_field_type "input" "text" "inquiry_message" "" "" ""
      = FormFieldType.textarea := by decide

/-- C6 (amended): the type attribute and the tag name do take precedence
over keyword inference — an `<input type="email">` always yields `email`
regardless of name, id, placeholder and label — but the keyword table's
textarea row applies to plain inputs too: a `type="text"` input named
`inquiry_message` is classified `textarea` by keywords alone. -/
theorem c6_amended :
    (∀ (name field_id placeholder label : String),
      determine_field_type "input" "email" name field_id placeholder label
        = FormFieldType.email) ∧
    determine_field_type "input" "text" "inquiry_message" "" "" ""
      = FormFieldType.textarea := by
  constructor
  · intro name field_id placeholder label
    rfl
  · decide

/-! ## Claim C7 -/

/-- C7: with one failure in the trailing hour (capped delay 2), the code's
jitter spans only ±10% of the delay — `get_delay` ranges over `[1.8, 2.2)`
as the uniform draw `r` runs over `[0, 1)` — while the inline comment
(「±20%のランダム性」) and the spec's "jitter of ±20% drawn uniformly"
(modelled by `get_delay_spec`) give `[1.6, 2.4)`: the code computes
`delay * 0.2 * (random.random() - 0.5)`, i.e. half the documented width. -/
theorem c7_jitter_half_documented_width :
    BackoffStrategy.get_delay ⟨1, 300, 2, [0]⟩ 10 0 = 9 / 5 ∧
    BackoffStrategy.get_delay ⟨1, 300, 2, [0]⟩ 10 1 = 11 / 5 ∧
    get_delay_spec ⟨1, 300, 2, [0]⟩ 10 0 = 8 / 5 ∧
    get_delay_spec ⟨1, 300, 2, [0]⟩ 10 1 = 12 / 5 := by
  refine ⟨?_, ?_, ?_, ?_⟩ <;>
    norm_num [BackoffStrategy.get_delay, get_delay_spec, List.filter, min_def, max_def]

/-! ## Claim C8 -/

/-- C8: (i) for a fixed jitter draw `r ∈ [0,1]` and the default
configuration, the backoff delay is monotonically non-decreasing in the
count of failures within the trailing hour (the `max_delay` cap keeps it
non-decreasing); (ii) `record_success` retains exactly the failure
timestamps newer than 10 minutes before the success; (iii) when every
stored failure is at least 10 minutes old, the pruned state's `get_delay`
returns exactly `base_delay`. -/
theorem c8_backoff_monotone_success_prune :
    (∀ (ts₁ ts₂ : List ℚ) (now r : ℚ), 0 ≤ r → r ≤ 1 →
      recentFailureCount ts₁ now ≤ recentFailureCount ts₂ now →
      BackoffStrategy.get_delay ⟨1, 300, 2, ts₁⟩ now r
        ≤ BackoffStrategy.get_delay ⟨1, 300, 2, ts₂⟩ now r) ∧
    (∀ (b : BackoffStrategy) (now t : ℚ),
      t ∈ (b.record_success now).failure_timestamps ↔
        t ∈ b.failure_timestamps ∧ now - 600 < t) ∧
    (∀ (ts : List ℚ) (now nowLater r : ℚ),
      (∀ t ∈ ts, ¬(now - 600 < t)) →
      BackoffStrategy.get_delay
        (BackoffStrategy.record_success ⟨1, 300, 2, ts⟩ now) nowLater r = 1) := by
  refine ⟨?_, ?_, ?_⟩
  · intro ts₁ ts₂ now r hr0 hr1 hcnt
    rw [get_delay_eq_delayOfCount, get_delay_eq_delayOfCount]
    exact delayOfCount_mono _ _ r hr0 hr1 hcnt
  · intro b now t
    simp [BackoffStrategy.record_success, List.mem_filter]
  · intro ts now nowLater r h
    have hfil : ts.filter (fun t => t > now - 600) = [] :=
      List.filter_eq_nil_iff.mpr (fun t ht => by simpa using h t ht)
    simp [BackoffStrategy.record_success, BackoffStrategy.get_delay, hfil]

/-- C8 witness: one recent failure gives a delay no larger than two recent
failures do, at the midpoint jitter draw. -/
theorem c8_backoff_witness :
    BackoffStrategy.get_delay ⟨1, 300, 2, [5]⟩ 10 (1 / 2)
      ≤ BackoffStrategy.get_delay ⟨1, 300, 2, [5, 6]⟩ 10 (1 / 2) :=
  c8_backoff_monotone_success_prune.1 [5] [5, 6] 10 (1 / 2)
    (by norm_num) (by norm_num)
    (by norm_num [recentFailureCount, List.filter])

/-! ## Claims C9 and C10: helper -/

/-- Under `moderate`, a single `check_compliance` call accumulates at most
one error: robots denial is only a warning outside `strict`, the
terms-of-service analyzer contributes at most one error, and the extra
terms-of-service error is appended only under `strict`. -/
theorem check_moderate_errors_le_one (policy : SitePolicy) (bd : ℚ) (tf : TosFetch) :
    (check_compliance .moderate policy bd tf).errors.length ≤ 1 := by
  unfold check_compliance
  dsimp only
  rcases hts : policy.terms_of_service_url with _ | url
  · simp [hts]
  · simp [hts]
    exact analyze_tos_errors_le_one url tf

/-! ## Claim C9 -/

/-- C9: for every robots.txt whose parse denies crawling, `check_compliance`
at level `strict` returns `allowed = false` with the robots denial
explanation among the errors, and at level `moderate` returns
`allowed = true` with a non-empty warning list — for every cached policy
built from that robots.txt, every backoff delay and every terms-of-service
fetch outcome. -/
theorem c9_strict_blocks_moderate_warns :
    ∀ (robots_url content : String) (tos_url : Option String)
      (bd : ℚ) (tf : TosFetch),
      (parse_robots_txt content).1 = false →
      ((check_compliance .strict (site_policy_of robots_url content tos_url)
          bd tf).allowed = false ∧
        "robots.txtで当該User-Agentのアクセスが禁止されています"
          ∈ (check_compliance .strict (site_policy_of robots_url content tos_url)
              bd tf).errors) ∧
      ((check_compliance .moderate (site_policy_of robots_url content tos_url)
          bd tf).allowed = true ∧
        (check_compliance .moderate (site_policy_of robots_url content tos_url)
            bd tf).warnings ≠ []) := by
  intro robots_url content tos_url bd tf h
  have hpol : (site_policy_of robots_url content tos_url).allows_crawling = false := by
    simp [site_policy_of, h]
  refine ⟨⟨?_, ?_⟩, ?_, ?_⟩
  · unfold check_compliance
    dsimp only
    simp [hpol]
  · unfold check_compliance
    dsimp only
    simp [hpol]
  · have hlen := check_moderate_errors_le_one (site_policy_of robots_url content tos_url) bd tf
    unfold check_compliance at hlen ⊢
    dsimp only at hlen ⊢
    simp only [hpol] at hlen ⊢
    simp at hlen ⊢
    omega
  · unfold check_compliance
    dsimp only
    simp [hpol]

/-- C9 witness: the canonical deny-all robots.txt (`User-agent: *` /
`Disallow: /`), no terms-of-service URL, zero backoff delay. -/
theorem c9_strict_blocks_moderate_warns_witness :
    (check_compliance .strict
        (site_policy_of "http://e/robots.txt" "User-agent: *\nDisallow: /" none)
        0 TosFetch.badStatus).allowed = false ∧
    (check_compliance .moderate
        (site_policy_of "http://e/robots.txt" "User-agent: *\nDisallow: /" none)
        0 TosFetch.badStatus).allowed = true :=
  ⟨((c9_strict_blocks_moderate_warns "http://e/robots.txt" "User-agent: *\nDisallow: /"
      none 0 TosFetch.badStatus (by decide)).1).1,
   ((c9_strict_blocks_moderate_warns "http://e/robots.txt" "User-agent: *\nDisallow: /"
      none 0 TosFetch.badStatus (by decide)).2).1⟩

/-! ## Claim C10 -/

/-- C10: under the `moderate` compliance level `check_compliance` always
returns `allowed = true`: the blocking branch needs more than 2 accumulated
errors, but one call accumulates at most one (the robots denial only warns
outside `strict`, and the terms-of-service analyzer appends at most one
error). -/
theorem c10_moderate_always_allowed :
    ∀ (policy : SitePolicy) (bd : ℚ) (tf : TosFetch),
      (check_compliance .moderate policy bd tf).allowed = true ∧
      (check_compliance .moderate policy bd tf).errors.length ≤ 1 := by
  intro policy bd tf
  have hlen := check_moderate_errors_le_one policy bd tf
  refine ⟨?_, hlen⟩
  unfold check_compliance at hlen ⊢
  dsimp only at hlen ⊢
  simp at hlen ⊢
  omega
